import Mathlib

/-!
# MAX31865 RTD-to-digital converter driver (`components/max31865/Max31865.cpp`)

A shallow embedding of the driver: the configuration-register codec, the SPI
request shapes, the conversion sequencing of `getRTD` and the two-branch
temperature computation of `getTemperature`.

Conventions of the embedding.
* `uint8_t` / `uint16_t` values are natural numbers, reduced `% 256` / `% 65536`
  wherever the C++ stores into a variable of that width.
* `esp_err_t` is an integer, `ESP_OK = 0`.
* The SPI device and the scheduler are observed through a log of the
  transactions and delays the driver issues; the device's answers are a script
  `env : Nat → Reply`, `env n` being the answer to the `n`-th transaction.
* Output parameters (`uint16_t *rtd`, `float *temperature`) are passed in and
  returned, so "not written" is "returned unchanged".
* `float` arithmetic is embedded over an arbitrary linearly ordered field `F`
  with the square root as a parameter; the theorems instantiate `F` with the
  real numbers and `Real.sqrt`.
-/

namespace Esp32Max31865

/-! ## Constants and types of `Max31865.h` (the header is not among the sources) -/

/-- Modelled from the spec: `MAX31865_CONFIG_VBIAS_BIT` of the missing header `Max31865.h`;
"bit7=vbiasEnabled". -/
def MAX31865_CONFIG_VBIAS_BIT : Nat := 7

/-- Modelled from the spec: `MAX31865_CONFIG_CONVERSIONMODE_BIT` of the missing header;
"bit6=autoConversionEnabled". -/
def MAX31865_CONFIG_CONVERSIONMODE_BIT : Nat := 6

/-- Modelled from the spec: `MAX31865_CONFIG_1SHOT_BIT` of the missing header;
"bit5=1-shot trigger". -/
def MAX31865_CONFIG_1SHOT_BIT : Nat := 5

/-- Modelled from the spec: `MAX31865_CONFIG_NWIRES_BIT` of the missing header;
"bit4=wireCount(1=Three,0=Two/Four)". -/
def MAX31865_CONFIG_NWIRES_BIT : Nat := 4

/-- Modelled from the spec: `MAX31865_CONFIG_FAULTDETECTION_BIT` of the missing header;
"bits3-2=faultDetectionCycle", so the field starts at bit 2. -/
def MAX31865_CONFIG_FAULTDETECTION_BIT : Nat := 2

/-- Modelled from the spec: `MAX31865_CONFIG_FAULTSTATUS_BIT` of the missing header;
"bit1=fault-status-clear". -/
def MAX31865_CONFIG_FAULTSTATUS_BIT : Nat := 1

/-- Modelled from the spec: `MAX31865_CONFIG_MAINSFILTER_BIT` of the missing header;
"bit0=mainsFilterHz". -/
def MAX31865_CONFIG_MAINSFILTER_BIT : Nat := 0

/-- Modelled from the spec: `MAX31865_REG_WRITE_OFFSET` of the missing header; "Address is a
7-bit register index; write requests OR a write-select bit into the address", so the
write-select bit is bit 7. -/
def MAX31865_REG_WRITE_OFFSET : Nat := 0x80

/-- Modelled from the spec: the register addresses `MAX31865_CONFIG_REG`, `MAX31865_RTD_REG`
and `MAX31865_FAULT_STATUS_REG` of the missing header. The spec names the three registers
but fixes no address, so the addresses are parameters of the embedding. -/
structure RegisterMap where
  MAX31865_CONFIG_REG : Nat
  MAX31865_RTD_REG : Nat
  MAX31865_FAULT_STATUS_REG : Nat
  deriving DecidableEq, Repr

/-- Modelled from the spec: `enum class Max31865NWires` of the missing header;
"wireCount: enum{Two/Four, Three}" with "1=Three,0=Two/Four". -/
inductive Max31865NWires where
  | TwoOrFour
  | Three
  deriving DecidableEq, Repr

/-- Modelled from the spec: `enum class Max31865FaultDetection` of the missing header;
"faultDetectionCycle: enum{NoAction, Automatic, RunManual, FinishManual} (2-bit field)",
"0 = NoAction baseline". -/
inductive Max31865FaultDetection where
  | NoAction
  | Automatic
  | RunManual
  | FinishManual
  deriving DecidableEq, Repr

/-- Modelled from the spec: `enum class Max31865Filter` of the missing header;
"mainsFilterHz: enum{60, 50}" with "1 = alternate/50Hz, 0 = default/60Hz". -/
inductive Max31865Filter where
  | Hz60
  | Hz50
  deriving DecidableEq, Repr

/-- Modelled from the spec: the enumerators' values, `static_cast<uint8_t>(faultDetection)`;
the four values of the 2-bit field in the order the spec lists them. -/
def Max31865FaultDetection.toNat : Max31865FaultDetection → Nat
  | .NoAction => 0
  | .Automatic => 1
  | .RunManual => 2
  | .FinishManual => 3

/-- The cast `static_cast<Max31865FaultDetection>(n)`; `getConfig` only applies it to a
value masked with `& 1U`. -/
def Max31865FaultDetection.cast : Nat → Max31865FaultDetection
  | 0 => .NoAction
  | 1 => .Automatic
  | 2 => .RunManual
  | _ => .FinishManual

/-- The cast `static_cast<Max31865NWires>(n)`; `getConfig` only applies it to a value
masked with `& 1U`. -/
def Max31865NWires.cast : Nat → Max31865NWires
  | 0 => .TwoOrFour
  | _ => .Three

/-- The cast `static_cast<Max31865Filter>(n)`; `getConfig` only applies it to a value
masked with `& 1U`. -/
def Max31865Filter.cast : Nat → Max31865Filter
  | 0 => .Hz60
  | _ => .Hz50

/-- Modelled from the spec: `max31865_config_t` of the missing header, with the field names
the source file uses (`vbias`, `autoConversion`, `nWires`, `faultDetection`, `filter`). -/
structure max31865_config_t where
  vbias : Bool
  autoConversion : Bool
  nWires : Max31865NWires
  faultDetection : Max31865FaultDetection
  filter : Max31865Filter
  deriving DecidableEq, Repr

/-- Modelled from the spec: `max31865_rtd_config_t` of the missing header, with the field
names the source file uses (`ref`, `nominal`); "RtdParameters: {referenceResistance,
nominalResistance}". -/
structure max31865_rtd_config_t (F : Type) where
  ref : F
  nominal : F

/-! ## The SPI device and the scheduler, as the driver sees them -/

/-- The ESP-IDF error type. -/
abbrev esp_err_t := Int

/-- The ESP-IDF success code. -/
def ESP_OK : esp_err_t := 0

/-- The fields of `spi_transaction_t` that the driver assigns. `tx_buffer` holds the bytes
the pointer refers to (`none` for `nullptr`); `rx_buffer` tells whether the pointer is
non-null. -/
structure spi_transaction_t where
  length : Nat
  rxlength : Nat
  addr : Nat
  tx_buffer : Option (List Nat)
  rx_buffer : Bool
  deriving DecidableEq, Repr

/-- What the driver does to the outside world: an SPI transaction handed to
`spi_device_transmit`, or a `vTaskDelay(pdMS_TO_TICKS(ms))`. -/
inductive Event where
  | transmit (t : spi_transaction_t)
  | delay (ms : Nat)
  deriving DecidableEq, Repr

/-- The device's answer to one transaction: the code `spi_device_transmit` returns and the
bytes clocked in (byte `i` is `rx i % 256`). -/
structure Reply where
  err : esp_err_t
  rx : Nat → Nat

/-- The driver object: the two configuration members of the class, and the history of the
SPI device and scheduler it owns (`sent` counts the transactions transmitted so far). -/
structure Max31865 (F : Type) where
  rtdConfig : max31865_rtd_config_t F
  chipConfig : max31865_config_t
  sent : Nat
  log : List Event

variable {F : Type}

/-- `spi_device_transmit(deviceHandle, &transaction)`: the transaction is logged, the next
scripted reply is consumed; returns the error code and the received bytes. -/
def spi_device_transmit (env : Nat → Reply) (t : spi_transaction_t) (d : Max31865 F) :
    esp_err_t × (Nat → Nat) × Max31865 F :=
  ((env d.sent).err, (fun i => (env d.sent).rx i % 256),
    { d with sent := d.sent + 1, log := d.log ++ [Event.transmit t] })

/-- `vTaskDelay(pdMS_TO_TICKS(ms))`. -/
def vTaskDelay (ms : Nat) (d : Max31865 F) : Max31865 F :=
  { d with log := d.log ++ [Event.delay ms] }

/-- `CHAR_BIT` of `<climits>`. -/
def CHAR_BIT : Nat := 8

/-! ## The driver -/

/-- `Max31865::writeSPI(uint8_t addr, uint8_t *data, size_t size)`; `data` is the contents
of the `size` bytes pointed to. -/
def writeSPI (env : Nat → Reply) (addr : Nat) (data : List Nat) (size : Nat)
    (d : Max31865 F) : esp_err_t × Max31865 F :=
  let transaction : spi_transaction_t :=
    { length := CHAR_BIT * size
      rxlength := 0
      addr := (addr % 256) ||| MAX31865_REG_WRITE_OFFSET
      tx_buffer := some data
      rx_buffer := false }
  let r := spi_device_transmit env transaction d
  (r.1, r.2.2)

/-- `Max31865::readSPI(uint8_t addr, uint8_t *result, size_t size)`; `result` is the
caller's buffer before the call, the returned function its contents after. -/
def readSPI (env : Nat → Reply) (addr : Nat) (result : Nat → Nat) (size : Nat)
    (d : Max31865 F) : esp_err_t × (Nat → Nat) × Max31865 F :=
  let transaction : spi_transaction_t :=
    { length := CHAR_BIT * size
      rxlength := size
      addr := (addr % 256) &&& (MAX31865_REG_WRITE_OFFSET - 1)
      tx_buffer := none
      rx_buffer := true }
  let r := spi_device_transmit env transaction d
  (r.1, (fun i => if i < size then r.2.1 i else result i), r.2.2)

/-- The local `configByte` that `Max31865::setConfig` builds from `config` (lines 65-81). -/
def setConfig.configByte (config : max31865_config_t) : Nat :=
  let configByte : Nat := 0
  let configByte :=
    if config.vbias then (configByte ||| (1 <<< MAX31865_CONFIG_VBIAS_BIT)) % 256
    else configByte
  let configByte :=
    if config.autoConversion then
      (configByte ||| (1 <<< MAX31865_CONFIG_CONVERSIONMODE_BIT)) % 256
    else configByte
  let configByte :=
    if config.nWires = Max31865NWires.Three then
      (configByte ||| (1 <<< MAX31865_CONFIG_NWIRES_BIT)) % 256
    else configByte
  let configByte :=
    if config.faultDetection ≠ Max31865FaultDetection.NoAction then
      (configByte |||
        (config.faultDetection.toNat <<< MAX31865_CONFIG_FAULTDETECTION_BIT)) % 256
    else configByte
  let configByte :=
    if config.filter ≠ Max31865Filter.Hz60 then
      (configByte ||| (1 <<< MAX31865_CONFIG_MAINSFILTER_BIT)) % 256
    else configByte
  configByte

/-- `Max31865::setConfig(max31865_config_t config)`. -/
def setConfig (R : RegisterMap) (env : Nat → Reply) (config : max31865_config_t)
    (d : Max31865 F) : esp_err_t × Max31865 F :=
  let d := { d with chipConfig := config }
  let configByte := setConfig.configByte config
  writeSPI env R.MAX31865_CONFIG_REG [configByte] 1 d

/-- The assignments `Max31865::getConfig` makes to `*config` from the byte read
(lines 92-100). -/
def getConfig.decode (configByte : Nat) : max31865_config_t :=
  { vbias := ((configByte >>> MAX31865_CONFIG_VBIAS_BIT) &&& 1) ≠ 0
    autoConversion := ((configByte >>> MAX31865_CONFIG_CONVERSIONMODE_BIT) &&& 1) ≠ 0
    nWires := Max31865NWires.cast ((configByte >>> MAX31865_CONFIG_NWIRES_BIT) &&& 1)
    faultDetection :=
      Max31865FaultDetection.cast ((configByte >>> MAX31865_CONFIG_FAULTDETECTION_BIT) &&& 1)
    filter := Max31865Filter.cast ((configByte >>> MAX31865_CONFIG_MAINSFILTER_BIT) &&& 1) }

/-- `Max31865::getConfig(max31865_config_t *config)`; `config` is `*config` before the
call, the returned configuration is `*config` after. -/
def getConfig (R : RegisterMap) (env : Nat → Reply) (config : max31865_config_t)
    (d : Max31865 F) : esp_err_t × max31865_config_t × Max31865 F :=
  let r := readSPI env R.MAX31865_CONFIG_REG (fun _ => 0) 1 d
  if r.1 ≠ ESP_OK then (r.1, config, r.2.2)
  else (ESP_OK, getConfig.decode (r.2.1 0), r.2.2)

/-- `Max31865::clearFault()`. The mask `~(1U << bit)` is the complement of a 32-bit
unsigned value; the result is stored back into the `uint8_t`. -/
def clearFault (R : RegisterMap) (env : Nat → Reply) (d : Max31865 F) :
    esp_err_t × Max31865 F :=
  let r := readSPI env R.MAX31865_CONFIG_REG (fun _ => 0) 1 d
  if r.1 ≠ ESP_OK then (r.1, r.2.2)
  else
    let configByte := r.2.1 0
    let configByte :=
      (configByte &&& (2 ^ 32 - 1 - (1 <<< MAX31865_CONFIG_FAULTSTATUS_BIT) % 2 ^ 32)) % 256
    writeSPI env R.MAX31865_CONFIG_REG [configByte] 1 r.2.2

/-- `Max31865::readFaultStatus(uint8_t *fault)`. -/
def readFaultStatus (R : RegisterMap) (env : Nat → Reply) (d : Max31865 F) :
    esp_err_t × Nat × Max31865 F :=
  let r := readSPI env R.MAX31865_FAULT_STATUS_REG (fun _ => 0) 1 d
  (r.1, r.2.1 0, r.2.2)

/-- `Max31865::getRTD(uint16_t *rtd)`; `rtd` is `*rtd` before the call, the returned
number is `*rtd` after. Each `return err` of the source ends the call with the state
reached so far. -/
def getRTD (R : RegisterMap) (env : Nat → Reply) (rtd : Nat) (d : Max31865 F) :
    esp_err_t × Nat × Max31865 F :=
  let oldConfig := d.chipConfig
  -- if (!chipConfig.vbias) { ... }
  let bias : esp_err_t × Max31865 F :=
    if d.chipConfig.vbias = false then
      let d := { d with chipConfig := { d.chipConfig with vbias := true } }
      let r := setConfig R env d.chipConfig d
      if r.1 ≠ ESP_OK then r else (ESP_OK, vTaskDelay 10 r.2)
    else (ESP_OK, d)
  if bias.1 ≠ ESP_OK then (bias.1, rtd, bias.2)
  else
    let d := bias.2
    -- if (!chipConfig.autoConversion) { ... }
    let shot : esp_err_t × Max31865 F :=
      if d.chipConfig.autoConversion = false then
        let r := readSPI env R.MAX31865_CONFIG_REG (fun _ => 0) 1 d
        if r.1 ≠ ESP_OK then (r.1, r.2.2)
        else
          let configByte := r.2.1 0
          let configByte := (configByte ||| (1 <<< MAX31865_CONFIG_1SHOT_BIT)) % 256
          let w := writeSPI env R.MAX31865_CONFIG_REG [configByte] 1 r.2.2
          if w.1 ≠ ESP_OK then w else (ESP_OK, vTaskDelay 65 w.2)
      else (ESP_OK, d)
    if shot.1 ≠ ESP_OK then (shot.1, rtd, shot.2)
    else
      let d := shot.2
      let r := readSPI env R.MAX31865_RTD_REG (fun _ => 0) 2 d
      if r.1 ≠ ESP_OK then (r.1, rtd, r.2.2)
      else
        let rtdBytes := r.2.1
        let rtd := (rtdBytes 0 <<< CHAR_BIT) % 65536
        let rtd := (rtd ||| rtdBytes 1) % 65536
        let rtd := (rtd >>> 1) % 65536
        let s := setConfig R env oldConfig r.2.2
        (s.1, rtd, s.2)

section Temperature

variable [LinearOrderedField F]

/-- The measured resistance, `float Rrtd = (rtd * rtdConfig.ref) / (1U << 15U)`
(line 167 of `Max31865::getTemperature`). -/
def getTemperature.Rrtd (rtdConfig : max31865_rtd_config_t F) (rtd : Nat) : F :=
  ((rtd : F) * rtdConfig.ref) / (((1 <<< 15 : Nat)) : F)

/-- The Callendar-Van Dusen value that `Max31865::getTemperature` stores into
`*temperature` first (lines 170-178). -/
def getTemperature.callendarVanDusen (sqrt : F → F) (rtdConfig : max31865_rtd_config_t F)
    (Rrtd : F) : F :=
  let RTD_A : F := 3.9083e-3
  let RTD_B : F := -5.775e-7
  let Z1 := -RTD_A
  let Z2 := RTD_A * RTD_A - (4 * RTD_B)
  let Z3 := (4 * RTD_B) / rtdConfig.nominal
  let Z4 := 2 * RTD_B
  let temperature := Z2 + (Z3 * Rrtd)
  (sqrt temperature + Z1) / Z4

/-- The Analog Devices AN709 polynomial that `Max31865::getTemperature` falls back to
(lines 185-191). -/
def getTemperature.polynomial (rtdConfig : max31865_rtd_config_t F) (Rrtd : F) : F :=
  let Rrtd := Rrtd / rtdConfig.nominal
  let Rrtd := Rrtd * 100.0
  let A0 : F := -242.02
  let A1 : F := 2.2228
  let A2 : F := 2.5859e-3
  let A3 : F := 4.8260e-6
  let A4 : F := 2.8183e-8
  let A5 : F := 1.5243e-10
  A0 + A1 * Rrtd + A2 * Rrtd ^ 2 + A3 * Rrtd ^ 3 + A4 * Rrtd ^ 4 + A5 * Rrtd ^ 5

/-- `Max31865::getTemperature(float *temperature)`; `temperature` is `*temperature` before
the call, the returned value is `*temperature` after. -/
def getTemperature (sqrt : F → F) (R : RegisterMap) (env : Nat → Reply) (temperature : F)
    (d : Max31865 F) : esp_err_t × F × Max31865 F :=
  let r := getRTD R env 0 d
  if r.1 ≠ ESP_OK then (r.1, temperature, r.2.2)
  else
    let rtd := r.2.1
    let d := r.2.2
    let Rrtd := getTemperature.Rrtd d.rtdConfig rtd
    let temperature := getTemperature.callendarVanDusen sqrt d.rtdConfig Rrtd
    if temperature > 0.0 then (ESP_OK, temperature, d)
    else (ESP_OK, getTemperature.polynomial d.rtdConfig Rrtd, d)

end Temperature

/-! ## Vocabulary of the statements -/

/-- The event of a 1-byte write of `byte` to the configuration register: address with the
write-select bit set, one payload byte, nothing received. -/
def configWrite (R : RegisterMap) (byte : Nat) : Event :=
  Event.transmit
    { length := 8, rxlength := 0, addr := (R.MAX31865_CONFIG_REG % 256) ||| 0x80,
      tx_buffer := some [byte], rx_buffer := false }

/-- The event of a 1-byte read of the configuration register. -/
def configRead (R : RegisterMap) : Event :=
  Event.transmit
    { length := 8, rxlength := 1, addr := (R.MAX31865_CONFIG_REG % 256) &&& 0x7F,
      tx_buffer := none, rx_buffer := true }

/-- The event of a 2-byte read of the RTD register. -/
def rtdRead (R : RegisterMap) : Event :=
  Event.transmit
    { length := 16, rxlength := 2, addr := (R.MAX31865_RTD_REG % 256) &&& 0x7F,
      tx_buffer := none, rx_buffer := true }

/-- Whether an event is an SPI transaction (as opposed to a delay). -/
def Event.isTransmit : Event → Bool
  | Event.transmit _ => true
  | Event.delay _ => false

/-- Position, within one `getRTD` call, of the RTD-register read among the call's
transactions: it follows the bias-enable write (if bias was off) and the configuration
read and one-shot write (if auto-conversion was off). -/
def rtdReadIndex (cfg : max31865_config_t) : Nat :=
  (if cfg.vbias = false then 1 else 0) + (if cfg.autoConversion = false then 2 else 0)

/-- Number of transactions of one complete `getRTD` call: everything up to the RTD-register
read, that read, and the restoring write. -/
def transactionCount (cfg : max31865_config_t) : Nat :=
  rtdReadIndex cfg + 2

/-- The value `getRTD` leaves in `*rtd` when the RTD-register read is answered by `r`
(lines 154-156: high byte shifted left, low byte or-ed in, shifted right by one). -/
def rawOf (r : Reply) : Nat :=
  (((((r.rx 0 % 256) <<< CHAR_BIT) % 65536) ||| (r.rx 1 % 256)) % 65536) >>> 1 % 65536

/-! ## Sample inputs -/

/-- The register addresses of the MAX31865 datasheet. -/
def sampleRegisters : RegisterMap := ⟨0x00, 0x01, 0x07⟩

/-- A device that answers every transaction with success and the bytes `0x40, 0x00`
(RTD register `0x4000`, raw ratio 8192). -/
def sampleReplies : Nat → Reply :=
  fun _ => ⟨ESP_OK, fun i => if i = 0 then 0x40 else 0x00⟩

/-- A device whose transaction number `k` times out (`ESP_ERR_TIMEOUT = 0x107`) and whose
other transactions succeed. -/
def sampleTimeoutAt (k : Nat) : Nat → Reply :=
  fun n => if n = k then ⟨0x107, fun _ => 0⟩ else ⟨ESP_OK, fun _ => 0⟩

/-- A driver with reference resistance 400, nominal resistance 100, a three-wire 50 Hz
configuration with the given bias and conversion mode, and no history. -/
def sampleDriver (F : Type) [LinearOrderedField F] (vbias autoConversion : Bool) :
    Max31865 F :=
  ⟨⟨400, 100⟩,
   ⟨vbias, autoConversion, Max31865NWires.Three, Max31865FaultDetection.NoAction,
    Max31865Filter.Hz50⟩, 0, []⟩

/-- A device that answers every transaction with success and the bytes `b0, b1`. -/
def sampleRepliesBytes (b0 b1 : Nat) : Nat → Reply :=
  fun _ => ⟨ESP_OK, fun i => if i = 0 then b0 else b1⟩

/-- A driver with reference resistance 430, nominal resistance 100, bias and
auto-conversion on, and no history. -/
def sampleDriver430 (F : Type) [LinearOrderedField F] : Max31865 F :=
  ⟨⟨430, 100⟩,
   ⟨true, true, Max31865NWires.Three, Max31865FaultDetection.NoAction,
    Max31865Filter.Hz50⟩, 0, []⟩

/-! ## Auxiliary facts -/

theorem byte_and_not_faultstatus (b : Nat) (hb : b < 256) :
    (b &&& (2 ^ 32 - 1 - (1 <<< MAX31865_CONFIG_FAULTSTATUS_BIT) % 2 ^ 32)) % 256
      = b &&& 0xFD := by
  apply Nat.eq_of_testBit_eq
  intro i
  simp only [Nat.testBit_mod_two_pow, Nat.testBit_and, show (256 : Nat) = 2 ^ 8 from rfl]
  by_cases hi : i < 8
  · have hc : Nat.testBit (2 ^ 32 - 1 - (1 <<< MAX31865_CONFIG_FAULTSTATUS_BIT) % 2 ^ 32) i
        = Nat.testBit 0xFD i := by
      interval_cases i <;> decide
    simp only [hi, decide_True, Bool.true_and, hc]
  · have h8 : (2 : Nat) ^ 8 ≤ 2 ^ i := Nat.pow_le_pow_right (by norm_num) (by omega)
    have hbi : b.testBit i = false := Nat.testBit_lt_two_pow (by omega)
    simp [hi, hbi]

theorem rtd_shift_arith (b0 b1 : Nat) (h0 : b0 < 256) (h1 : b1 < 256) :
    (((((b0 <<< CHAR_BIT) % 65536) ||| b1) % 65536) >>> 1) % 65536 = (256 * b0 + b1) / 2 := by
  have e : (b0 <<< CHAR_BIT) ||| b1 = 256 * b0 + b1 := by
    have := Nat.mul_add_lt_is_or (show b1 < 2 ^ 8 from h1) b0
    simp only [CHAR_BIT, Nat.shiftLeft_eq]
    rw [Nat.mul_comm b0 (2 ^ 8)]
    exact this.symm
  have l1 : b0 <<< CHAR_BIT < 65536 := by
    simp only [CHAR_BIT, Nat.shiftLeft_eq]; omega
  rw [Nat.mod_eq_of_lt l1, e, Nat.shiftRight_eq_div_pow]
  have l2 : 256 * b0 + b1 < 65536 := by omega
  rw [Nat.mod_eq_of_lt l2]
  omega

/-! ## Configuration codec -/

/-- C1: for every configuration whose fault-detection cycle is `NoAction` or `Automatic`,
decoding (as `getConfig` does) the byte that `setConfig` encodes returns the configuration
itself. -/
theorem decode_encode_roundtrip (c : max31865_config_t)
    (h : c.faultDetection = Max31865FaultDetection.NoAction ∨
      c.faultDetection = Max31865FaultDetection.Automatic) :
    getConfig.decode (setConfig.configByte c) = c := by
  rcases c with ⟨vb, ac, nw, fd, fl⟩
  rcases h with h | h <;> simp only at h <;> subst h <;>
    cases vb <;> cases ac <;> cases nw <;> cases fl <;> rfl

/-- Witness of C1 at the configuration (bias on, one-shot mode, three wires, automatic
fault detection, 50 Hz). -/
theorem decode_encode_roundtrip_witness :
    getConfig.decode (setConfig.configByte
        ⟨true, false, Max31865NWires.Three, Max31865FaultDetection.Automatic,
          Max31865Filter.Hz50⟩)
      = ⟨true, false, Max31865NWires.Three, Max31865FaultDetection.Automatic,
          Max31865Filter.Hz50⟩ :=
  decode_encode_roundtrip _ (Or.inr rfl)

/-- C2: `setConfig` issues one write to the configuration register, and the byte written has
bit 7 set iff `vbias`, bit 6 set iff `autoConversion`, bit 4 set iff the wire count is
`Three`, bits 3-2 equal to the 2-bit fault-detection value, bit 0 set iff the filter is
50 Hz, and bits 5 and 1 clear. -/
theorem setConfig_bit_layout (R : RegisterMap) (env : Nat → Reply) (c : max31865_config_t)
    (d : Max31865 F) :
    (setConfig R env c d).2.log = d.log ++ [configWrite R (setConfig.configByte c)] ∧
    ((setConfig.configByte c).testBit 7 = true ↔ c.vbias = true) ∧
    ((setConfig.configByte c).testBit 6 = true ↔ c.autoConversion = true) ∧
    ((setConfig.configByte c).testBit 4 = true ↔ c.nWires = Max31865NWires.Three) ∧
    ((setConfig.configByte c >>> 2) &&& 3 = c.faultDetection.toNat) ∧
    ((setConfig.configByte c).testBit 0 = true ↔ c.filter = Max31865Filter.Hz50) ∧
    (setConfig.configByte c).testBit 5 = false ∧
    (setConfig.configByte c).testBit 1 = false ∧
    setConfig.configByte c < 256 := by
  refine ⟨rfl, ?_⟩
  rcases c with ⟨vb, ac, nw, fd, fl⟩
  cases vb <;> cases ac <;> cases nw <;> cases fd <;> cases fl <;> decide

/-! ## Fault clearing -/

/-- C7: when the configuration read succeeds and returns the byte `b`, `clearFault` writes
back a byte whose bit 1 is 0 and whose every other bit equals that of `b`; when the read
fails, `clearFault` returns that error and issues no write. -/
theorem clearFault_frame (R : RegisterMap) (env : Nat → Reply) (d : Max31865 F) (b : Nat)
    (hb : (env d.sent).rx 0 % 256 = b) :
    ((env d.sent).err = ESP_OK →
      ∃ w, (clearFault R env d).2.log = d.log ++ [configRead R, configWrite R w] ∧
        w.testBit 1 = false ∧ ∀ i, i ≠ 1 → w.testBit i = b.testBit i) ∧
    ((env d.sent).err ≠ ESP_OK →
      (clearFault R env d).1 = (env d.sent).err ∧
        (clearFault R env d).2.log = d.log ++ [configRead R]) := by
  have hlt : b < 256 := by rw [← hb]; exact Nat.mod_lt _ (by norm_num)
  constructor
  · intro hok
    refine ⟨b &&& 0xFD, ?_, ?_, ?_⟩
    · simp [clearFault, readSPI, writeSPI, spi_device_transmit, hok, hb, configRead,
        configWrite, CHAR_BIT, MAX31865_REG_WRITE_OFFSET]
      exact byte_and_not_faultstatus b hlt
    · have hc : Nat.testBit 0xFD 1 = false := by decide
      simp [hc]
    · intro i hi
      by_cases h8 : i < 8
      · have hc : Nat.testBit 0xFD i = true := by
          interval_cases i <;> first | decide | exact absurd rfl hi
        simp [hc]
      · have hp : (2 : Nat) ^ 8 ≤ 2 ^ i := Nat.pow_le_pow_right (by norm_num) (by omega)
        have hbi : b.testBit i = false := Nat.testBit_lt_two_pow (by omega)
        simp [hbi]
  · intro herr
    simp [clearFault, readSPI, spi_device_transmit, herr, configRead, CHAR_BIT,
      MAX31865_REG_WRITE_OFFSET]

/-- Witness of C7: the device answers the read with `0xFF`; `0xFD` is written back. -/
theorem clearFault_frame_witness :
    ∃ w, (clearFault ⟨0, 1, 7⟩ (fun _ => ⟨0, fun _ => 0xFF⟩)
        (⟨⟨400, 100⟩, ⟨true, true, Max31865NWires.Three, Max31865FaultDetection.NoAction,
          Max31865Filter.Hz60⟩, 0, []⟩ : Max31865 ℚ)).2.log
        = [] ++ [configRead ⟨0, 1, 7⟩, configWrite ⟨0, 1, 7⟩ w] ∧
      w.testBit 1 = false ∧ ∀ i, i ≠ 1 → w.testBit i = Nat.testBit 0xFF i :=
  (clearFault_frame ⟨0, 1, 7⟩ (fun _ => ⟨0, fun _ => 0xFF⟩)
    (⟨⟨400, 100⟩, ⟨true, true, Max31865NWires.Three, Max31865FaultDetection.NoAction,
      Max31865Filter.Hz60⟩, 0, []⟩ : Max31865 ℚ) 0xFF rfl).1 rfl

/-! ## Conversion sequencing -/

theorem configByte_testBit_seven (c : max31865_config_t) :
    (setConfig.configByte c).testBit 7 = c.vbias := by
  rcases c with ⟨vb, ac, nw, fd, fl⟩
  cases vb <;> cases ac <;> cases nw <;> cases fd <;> cases fl <;> decide

theorem configByte_testBit_five (c : max31865_config_t) :
    (setConfig.configByte c).testBit 5 = false := by
  rcases c with ⟨vb, ac, nw, fd, fl⟩
  cases vb <;> cases ac <;> cases nw <;> cases fd <;> cases fl <;> decide

/-- The driver state `getTemperature` leaves is the one `getRTD` leaves. -/
theorem getTemperature_state [LinearOrderedField F] (sqrt : F → F) (R : RegisterMap)
    (env : Nat → Reply) (t0 : F) (d : Max31865 F) :
    (getTemperature sqrt R env t0 d).2.2 = (getRTD R env 0 d).2.2 := by
  unfold getTemperature
  simp only
  split_ifs <;> rfl

/-- The error code `getTemperature` returns is the one `getRTD` returns. -/
theorem getTemperature_err [LinearOrderedField F] (sqrt : F → F) (R : RegisterMap)
    (env : Nat → Reply) (t0 : F) (d : Max31865 F) :
    (getTemperature sqrt R env t0 d).1 = (getRTD R env 0 d).1 := by
  unfold getTemperature
  simp only
  split_ifs with h1 h2
  · rfl
  · exact (not_not.mp h1).symm
  · exact (not_not.mp h1).symm

theorem getRTD_bias_off_oneshot (R : RegisterMap) (env : Nat → Reply) (rtd0 : Nat)
    (d : Max31865 F) (hv : d.chipConfig.vbias = false)
    (ha : d.chipConfig.autoConversion = false)
    (h0 : (env d.sent).err = ESP_OK) (h1 : (env (d.sent + 1)).err = ESP_OK)
    (h2 : (env (d.sent + 2)).err = ESP_OK) (h3 : (env (d.sent + 3)).err = ESP_OK) :
    getRTD R env rtd0 d =
      ((env (d.sent + 4)).err, rawOf (env (d.sent + 3)),
        { d with
          sent := d.sent + 5
          log := d.log ++
            [configWrite R (setConfig.configByte { d.chipConfig with vbias := true }),
             Event.delay 10, configRead R,
             configWrite R (((env (d.sent + 1)).rx 0 % 256 ||| 0x20) % 256),
             Event.delay 65, rtdRead R,
             configWrite R (setConfig.configByte d.chipConfig)] }) := by
  rcases d with ⟨rc, ⟨vb, ac, nw, fd, fl⟩, sent, log⟩
  simp only at hv ha h0 h1 h2 h3
  subst hv ha
  simp [getRTD, setConfig, readSPI, writeSPI, spi_device_transmit, vTaskDelay, h0, h1, h2,
    h3, configRead, configWrite, rtdRead, rawOf, CHAR_BIT, MAX31865_REG_WRITE_OFFSET,
    MAX31865_CONFIG_1SHOT_BIT, Nat.add_assoc]

theorem getRTD_bias_off_auto (R : RegisterMap) (env : Nat → Reply) (rtd0 : Nat)
    (d : Max31865 F) (hv : d.chipConfig.vbias = false)
    (ha : d.chipConfig.autoConversion = true)
    (h0 : (env d.sent).err = ESP_OK) (h1 : (env (d.sent + 1)).err = ESP_OK) :
    getRTD R env rtd0 d =
      ((env (d.sent + 2)).err, rawOf (env (d.sent + 1)),
        { d with
          sent := d.sent + 3
          log := d.log ++
            [configWrite R (setConfig.configByte { d.chipConfig with vbias := true }),
             Event.delay 10, rtdRead R,
             configWrite R (setConfig.configByte d.chipConfig)] }) := by
  rcases d with ⟨rc, ⟨vb, ac, nw, fd, fl⟩, sent, log⟩
  simp only at hv ha h0 h1
  subst hv ha
  simp [getRTD, setConfig, readSPI, writeSPI, spi_device_transmit, vTaskDelay, h0, h1,
    configWrite, rtdRead, rawOf, CHAR_BIT, MAX31865_REG_WRITE_OFFSET, Nat.add_assoc]

theorem getRTD_bias_on_oneshot (R : RegisterMap) (env : Nat → Reply) (rtd0 : Nat)
    (d : Max31865 F) (hv : d.chipConfig.vbias = true)
    (ha : d.chipConfig.autoConversion = false)
    (h0 : (env d.sent).err = ESP_OK) (h1 : (env (d.sent + 1)).err = ESP_OK)
    (h2 : (env (d.sent + 2)).err = ESP_OK) :
    getRTD R env rtd0 d =
      ((env (d.sent + 3)).err, rawOf (env (d.sent + 2)),
        { d with
          sent := d.sent + 4
          log := d.log ++
            [configRead R,
             configWrite R (((env d.sent).rx 0 % 256 ||| 0x20) % 256),
             Event.delay 65, rtdRead R,
             configWrite R (setConfig.configByte d.chipConfig)] }) := by
  rcases d with ⟨rc, ⟨vb, ac, nw, fd, fl⟩, sent, log⟩
  simp only at hv ha h0 h1 h2
  subst hv ha
  simp [getRTD, setConfig, readSPI, writeSPI, spi_device_transmit, vTaskDelay, h0, h1, h2,
    configRead, configWrite, rtdRead, rawOf, CHAR_BIT, MAX31865_REG_WRITE_OFFSET,
    MAX31865_CONFIG_1SHOT_BIT, Nat.add_assoc]

theorem getRTD_bias_on_auto (R : RegisterMap) (env : Nat → Reply) (rtd0 : Nat)
    (d : Max31865 F) (hv : d.chipConfig.vbias = true)
    (ha : d.chipConfig.autoConversion = true)
    (h0 : (env d.sent).err = ESP_OK) :
    getRTD R env rtd0 d =
      ((env (d.sent + 1)).err, rawOf (env d.sent),
        { d with
          sent := d.sent + 2
          log := d.log ++ [rtdRead R, configWrite R (setConfig.configByte d.chipConfig)] }) := by
  rcases d with ⟨rc, ⟨vb, ac, nw, fd, fl⟩, sent, log⟩
  simp only at hv ha h0
  subst hv ha
  simp [getRTD, setConfig, readSPI, writeSPI, spi_device_transmit, vTaskDelay, h0,
    configWrite, rtdRead, rawOf, CHAR_BIT, MAX31865_REG_WRITE_OFFSET, Nat.add_assoc]

/-- A list whose last element is a transaction splits into what precedes it and that
transaction. -/
theorem split_last_transmit (L : List Event) (k : Nat)
    (hlast : L.getLast?.map Event.isTransmit = some true)
    (hcount : L.countP Event.isTransmit = k + 1) :
    ∃ pre t, L = pre ++ [Event.transmit t] ∧ pre.countP Event.isTransmit = k := by
  rcases List.eq_nil_or_concat L with h | ⟨pre, e, h⟩
  · subst h; simp at hlast
  · rw [List.concat_eq_append] at h
    subst h
    cases e with
    | transmit t =>
      refine ⟨pre, t, rfl, ?_⟩
      simpa [List.countP_append, Event.isTransmit] using hcount
    | delay ms => simp [Event.isTransmit] at hlast

/-- What `getRTD` does when the `k`-th transaction of the call is the first to fail: it
returns that error, and the events it issued end with the `k`-th transaction. -/
theorem getRTD_abort (R : RegisterMap) (env : Nat → Reply) (rtd0 : Nat) (d : Max31865 F)
    (k : Nat) (hk : k < transactionCount d.chipConfig)
    (hpre : ∀ j, j < k → (env (d.sent + j)).err = ESP_OK)
    (herr : (env (d.sent + k)).err ≠ ESP_OK) :
    (getRTD R env rtd0 d).1 = (env (d.sent + k)).err ∧
    (getRTD R env rtd0 d).2.2.log
      = d.log ++ (getRTD R env rtd0 d).2.2.log.drop d.log.length ∧
    ((getRTD R env rtd0 d).2.2.log.drop d.log.length).getLast?.map Event.isTransmit
      = some true ∧
    ((getRTD R env rtd0 d).2.2.log.drop d.log.length).countP Event.isTransmit = k + 1 := by
  rcases d with ⟨rc, ⟨vb, ac, nw, fd, fl⟩, sent, log⟩
  have h0 := hpre 0
  have h1 := hpre 1
  have h2 := hpre 2
  have h3 := hpre 3
  cases vb <;> cases ac <;> simp [transactionCount, rtdReadIndex] at hk <;>
    interval_cases k <;> simp at h0 h1 h2 h3 herr <;>
    simp [getRTD, setConfig, readSPI, writeSPI, spi_device_transmit, vTaskDelay, h0, h1, h2,
      h3, herr, Event.isTransmit, Nat.add_assoc, List.countP_cons]

theorem or_one_shot_testBit (b : Nat) :
    (b ||| 0x20).testBit 5 = true ∧ ∀ i, i ≠ 5 → (b ||| 0x20).testBit i = b.testBit i := by
  constructor
  · have h32 : Nat.testBit 32 5 = true := by decide
    simp [h32]
  · intro i hi
    have h32 : Nat.testBit 32 i = false := by
      have := @Nat.testBit_two_pow 5 i
      simpa [hi.symm] using this
    simp [h32]

/-- C3: with bias off and auto-conversion off in the stored configuration `cfg` and every
transaction succeeding, `getTemperature` issues exactly: a configuration write of
`encode(cfg with vbias := true)`, a 10 ms delay, a 1-byte configuration read (returning
`b`), a configuration write of `b` with bit 5 set and the other bits unchanged, a 65 ms
delay, a 2-byte RTD read, and a configuration write of `encode(cfg)`, whose bits 7 and 5
are 0. -/
theorem getTemperature_sequence_oneshot [LinearOrderedField F] (sqrt : F → F)
    (R : RegisterMap) (env : Nat → Reply) (t0 : F) (d : Max31865 F) (b : Nat)
    (hv : d.chipConfig.vbias = false) (ha : d.chipConfig.autoConversion = false)
    (hok : ∀ n, (env n).err = ESP_OK)
    (hb : (env (d.sent + 1)).rx 0 % 256 = b) :
    (getTemperature sqrt R env t0 d).2.2.log =
      d.log ++
        [configWrite R (setConfig.configByte { d.chipConfig with vbias := true }),
         Event.delay 10,
         configRead R,
         configWrite R (b ||| 0x20),
         Event.delay 65,
         rtdRead R,
         configWrite R (setConfig.configByte d.chipConfig)] ∧
    (b ||| 0x20).testBit 5 = true ∧
    (∀ i, i ≠ 5 → (b ||| 0x20).testBit i = b.testBit i) ∧
    (setConfig.configByte d.chipConfig).testBit 7 = false ∧
    (setConfig.configByte d.chipConfig).testBit 5 = false := by
  have hlt : b < 2 ^ 8 := by rw [← hb]; exact Nat.mod_lt _ (by norm_num)
  have hor : (b ||| 0x20) % 256 = b ||| 0x20 :=
    Nat.mod_eq_of_lt (Nat.or_lt_two_pow hlt (by norm_num))
  refine ⟨?_, (or_one_shot_testBit b).1, (or_one_shot_testBit b).2, ?_,
    configByte_testBit_five _⟩
  · rw [getTemperature_state,
      getRTD_bias_off_oneshot R env 0 d hv ha (hok _) (hok _) (hok _) (hok _), hb, hor]
  · rw [configByte_testBit_seven, hv]

/-- C4: with bias on and auto-conversion on in the stored configuration and every
transaction succeeding, `getTemperature` issues exactly a 2-byte RTD read followed by a
configuration write of `encode(cfg)`: no delay, no configuration read, no other write. -/
theorem getTemperature_sequence_auto [LinearOrderedField F] (sqrt : F → F)
    (R : RegisterMap) (env : Nat → Reply) (t0 : F) (d : Max31865 F)
    (hv : d.chipConfig.vbias = true) (ha : d.chipConfig.autoConversion = true)
    (hok : ∀ n, (env n).err = ESP_OK) :
    (getTemperature sqrt R env t0 d).2.2.log =
      d.log ++ [rtdRead R, configWrite R (setConfig.configByte d.chipConfig)] := by
  rw [getTemperature_state, getRTD_bias_on_auto R env 0 d hv ha (hok _)]

/-- Witness of C3: the sample driver with bias and auto-conversion off, every transaction
answered with success and first byte `0x40`. -/
theorem getTemperature_sequence_oneshot_witness :
    (getTemperature (fun x => x) sampleRegisters sampleReplies (0 : ℚ)
        (sampleDriver ℚ false false)).2.2.log =
      [] ++
        [configWrite sampleRegisters 0x91, Event.delay 10, configRead sampleRegisters,
         configWrite sampleRegisters (0x40 ||| 0x20), Event.delay 65,
         rtdRead sampleRegisters, configWrite sampleRegisters 0x11] :=
  (getTemperature_sequence_oneshot (fun x => x) sampleRegisters sampleReplies (0 : ℚ)
    (sampleDriver ℚ false false) 0x40 rfl rfl (fun _ => rfl) rfl).1

/-- Witness of C4: the sample driver with bias and auto-conversion on. -/
theorem getTemperature_sequence_auto_witness :
    (getTemperature (fun x => x) sampleRegisters sampleReplies (0 : ℚ)
        (sampleDriver ℚ true true)).2.2.log =
      [] ++ [rtdRead sampleRegisters, configWrite sampleRegisters 0xD1] :=
  getTemperature_sequence_auto (fun x => x) sampleRegisters sampleReplies (0 : ℚ)
    (sampleDriver ℚ true true) rfl rfl (fun _ => rfl)

/-- C5: for every stored configuration `cfg`, a `getTemperature` call in which every
transaction succeeds returns success, ends with a configuration write of `encode(cfg)`
(bit 7 equal to `cfg.vbias`, bit 5 clear), and leaves `cfg` as the stored configuration. -/
theorem getTemperature_restores [LinearOrderedField F] (sqrt : F → F) (R : RegisterMap)
    (env : Nat → Reply) (t0 : F) (d : Max31865 F) (hok : ∀ n, (env n).err = ESP_OK) :
    (getTemperature sqrt R env t0 d).1 = ESP_OK ∧
    (∃ pre, (getTemperature sqrt R env t0 d).2.2.log
      = d.log ++ (pre ++ [configWrite R (setConfig.configByte d.chipConfig)])) ∧
    (setConfig.configByte d.chipConfig).testBit 7 = d.chipConfig.vbias ∧
    (setConfig.configByte d.chipConfig).testBit 5 = false ∧
    (getTemperature sqrt R env t0 d).2.2.chipConfig = d.chipConfig := by
  rw [getTemperature_state, getTemperature_err]
  refine ⟨?_, ?_, configByte_testBit_seven _, configByte_testBit_five _, ?_⟩ <;>
    cases hv : d.chipConfig.vbias <;> cases ha : d.chipConfig.autoConversion
  · rw [getRTD_bias_off_oneshot R env 0 d hv ha (hok _) (hok _) (hok _) (hok _)]
    exact hok _
  · rw [getRTD_bias_off_auto R env 0 d hv ha (hok _) (hok _)]
    exact hok _
  · rw [getRTD_bias_on_oneshot R env 0 d hv ha (hok _) (hok _) (hok _)]
    exact hok _
  · rw [getRTD_bias_on_auto R env 0 d hv ha (hok _)]
    exact hok _
  · rw [getRTD_bias_off_oneshot R env 0 d hv ha (hok _) (hok _) (hok _) (hok _)]
    exact ⟨[_, _, _, _, _, _], rfl⟩
  · rw [getRTD_bias_off_auto R env 0 d hv ha (hok _) (hok _)]
    exact ⟨[_, _, _], rfl⟩
  · rw [getRTD_bias_on_oneshot R env 0 d hv ha (hok _) (hok _) (hok _)]
    exact ⟨[_, _, _, _], rfl⟩
  · rw [getRTD_bias_on_auto R env 0 d hv ha (hok _)]
    exact ⟨[_], rfl⟩
  · rw [getRTD_bias_off_oneshot R env 0 d hv ha (hok _) (hok _) (hok _) (hok _)]
  · rw [getRTD_bias_off_auto R env 0 d hv ha (hok _) (hok _)]
  · rw [getRTD_bias_on_oneshot R env 0 d hv ha (hok _) (hok _) (hok _)]
  · rw [getRTD_bias_on_auto R env 0 d hv ha (hok _)]

/-- Witness of C5: the sample driver with bias on and one-shot mode. -/
theorem getTemperature_restores_witness :
    (getTemperature (fun x => x) sampleRegisters sampleReplies (0 : ℚ)
        (sampleDriver ℚ true false)).2.2.chipConfig
      = (sampleDriver ℚ true false).chipConfig :=
  (getTemperature_restores (fun x => x) sampleRegisters sampleReplies (0 : ℚ)
    (sampleDriver ℚ true false) (fun _ => rfl)).2.2.2.2

/-- `getTemperature` leaves `*temperature` alone when `getRTD` fails. -/
theorem getTemperature_of_err [LinearOrderedField F] (sqrt : F → F) (R : RegisterMap)
    (env : Nat → Reply) (t0 : F) (d : Max31865 F) (h : (getRTD R env 0 d).1 ≠ ESP_OK) :
    (getTemperature sqrt R env t0 d).2.1 = t0 := by
  unfold getTemperature
  simp only
  rw [if_pos h]

/-- C6: if the `k`-th transaction of a `getTemperature` call (counting from 0, `k` below
the number of transactions of the complete sequence) is the first one the transport fails,
then `getTemperature` returns that error code, the events it issued end with that `k`-th
transaction (no later transaction, no later delay, no restoring write), and
`*temperature` is left unchanged. -/
theorem getTemperature_error_aborts [LinearOrderedField F] (sqrt : F → F) (R : RegisterMap)
    (env : Nat → Reply) (t0 : F) (d : Max31865 F) (k : Nat)
    (hk : k < transactionCount d.chipConfig)
    (hpre : ∀ j, j < k → (env (d.sent + j)).err = ESP_OK)
    (herr : (env (d.sent + k)).err ≠ ESP_OK) :
    (getTemperature sqrt R env t0 d).1 = (env (d.sent + k)).err ∧
    (getTemperature sqrt R env t0 d).2.1 = t0 ∧
    ∃ pre t, (getTemperature sqrt R env t0 d).2.2.log = d.log ++ (pre ++ [Event.transmit t]) ∧
      pre.countP Event.isTransmit = k := by
  obtain ⟨he, hl, hlast, hcount⟩ := getRTD_abort R env 0 d k hk hpre herr
  obtain ⟨pre, t, hsplit, hpc⟩ := split_last_transmit _ k hlast hcount
  refine ⟨?_, ?_, pre, t, ?_, hpc⟩
  · rw [getTemperature_err, he]
  · exact getTemperature_of_err sqrt R env t0 d (by rw [he]; exact herr)
  · rw [getTemperature_state, ← hsplit]
    exact hl

/-- Witness of C6: bias off, one-shot mode, the one-shot write (transaction 2) times
out. -/
theorem getTemperature_error_aborts_witness :
    (getTemperature (fun x => x) sampleRegisters (sampleTimeoutAt 2) (25 : ℚ)
        (sampleDriver ℚ false false)).1 = 0x107 ∧
    (getTemperature (fun x => x) sampleRegisters (sampleTimeoutAt 2) (25 : ℚ)
        (sampleDriver ℚ false false)).2.1 = 25 ∧
    ∃ pre t, (getTemperature (fun x => x) sampleRegisters (sampleTimeoutAt 2) (25 : ℚ)
        (sampleDriver ℚ false false)).2.2.log = [] ++ (pre ++ [Event.transmit t]) ∧
      pre.countP Event.isTransmit = 2 :=
  getTemperature_error_aborts (fun x => x) sampleRegisters (sampleTimeoutAt 2) (25 : ℚ)
    (sampleDriver ℚ false false) 2 (by decide)
    (fun j hj => by interval_cases j <;> rfl) (by decide)

/-! ## Raw ratio -/

/-- C8: when the transactions up to and including the RTD-register read succeed and that
read returns the bytes `b0`, `b1`, the raw ratio `getRTD` produces is
`floor((256*b0 + b1) / 2)`, and it is at most 32767. -/
theorem getRTD_raw_ratio (R : RegisterMap) (env : Nat → Reply) (rtd0 : Nat)
    (d : Max31865 F) (b0 b1 : Nat)
    (hok : ∀ j, j ≤ rtdReadIndex d.chipConfig → (env (d.sent + j)).err = ESP_OK)
    (h0 : (env (d.sent + rtdReadIndex d.chipConfig)).rx 0 % 256 = b0)
    (h1 : (env (d.sent + rtdReadIndex d.chipConfig)).rx 1 % 256 = b1) :
    (getRTD R env rtd0 d).2.1 = (256 * b0 + b1) / 2 ∧ (getRTD R env rtd0 d).2.1 ≤ 32767 := by
  have hb0 : b0 < 256 := by rw [← h0]; exact Nat.mod_lt _ (by norm_num)
  have hb1 : b1 < 256 := by rw [← h1]; exact Nat.mod_lt _ (by norm_num)
  have key : (getRTD R env rtd0 d).2.1 = rawOf (env (d.sent + rtdReadIndex d.chipConfig)) := by
    cases hv : d.chipConfig.vbias <;> cases ha : d.chipConfig.autoConversion <;>
      simp only [rtdReadIndex, hv, ha] at hok ⊢
    · rw [getRTD_bias_off_oneshot R env rtd0 d hv ha (hok 0 (by norm_num))
        (hok 1 (by norm_num)) (hok 2 (by norm_num)) (hok 3 (by norm_num))]
      rfl
    · rw [getRTD_bias_off_auto R env rtd0 d hv ha (hok 0 (by norm_num))
        (hok 1 (by norm_num))]
      rfl
    · rw [getRTD_bias_on_oneshot R env rtd0 d hv ha (hok 0 (by norm_num))
        (hok 1 (by norm_num)) (hok 2 (by norm_num))]
      rfl
    · rw [getRTD_bias_on_auto R env rtd0 d hv ha (hok 0 (by norm_num))]
      rfl
  rw [key, rawOf, h0, h1, rtd_shift_arith b0 b1 hb0 hb1]
  exact ⟨rfl, by omega⟩

/-- Witness of C8: the RTD register reads `0x40, 0x00`; the raw ratio is 8192. -/
theorem getRTD_raw_ratio_witness :
    (getRTD sampleRegisters sampleReplies 0 (sampleDriver ℚ false false)).2.1
        = (256 * 0x40 + 0x00) / 2 ∧
      (getRTD sampleRegisters sampleReplies 0 (sampleDriver ℚ false false)).2.1 ≤ 32767 :=
  getRTD_raw_ratio sampleRegisters sampleReplies 0 (sampleDriver ℚ false false) 0x40 0x00
    (fun _ _ => rfl) rfl rfl

/-! ## Temperature computation over the real numbers -/

/-- The root `(s - A) / (2B)` solves `n (1 + A T + B T²) = R` when `s² = A² - 4B + (4B/n) R`. -/
theorem quadratic_root_of_sq (A B n R s : ℝ) (hB : B ≠ 0) (hn : n ≠ 0)
    (hs : s ^ 2 = A * A - 4 * B + (4 * B / n) * R) :
    n * (1 + A * ((s + -A) / (2 * B)) + B * ((s + -A) / (2 * B)) ^ 2) = R := by
  have hR : R = n * (s ^ 2 - A * A + 4 * B) / (4 * B) := by
    field_simp at hs ⊢
    linear_combination -hs
  rw [hR]
  field_simp
  ring

theorem root_nonpos_of_le (A B n R : ℝ) (hB : B < 0) (hn : 0 < n) (hR : R ≤ n) :
    (Real.sqrt (A * A - 4 * B + (4 * B / n) * R) + -A) / (2 * B) ≤ 0 := by
  have hq : R / n ≤ 1 := (div_le_one hn).mpr hR
  have hD : A ^ 2 ≤ A * A - 4 * B + (4 * B / n) * R := by
    have e : (4 * B / n) * R = 4 * B * (R / n) := by ring
    rw [e]
    nlinarith
  have hs : A ≤ Real.sqrt (A * A - 4 * B + (4 * B / n) * R) := Real.le_sqrt_of_sq_le hD
  exact div_nonpos_of_nonneg_of_nonpos (by linarith) (by linarith)

theorem root_zero_of_eq (A B n : ℝ) (hA : 0 ≤ A) (hn : 0 < n) :
    (Real.sqrt (A * A - 4 * B + (4 * B / n) * n) + -A) / (2 * B) = 0 := by
  have e : A * A - 4 * B + (4 * B / n) * n = A ^ 2 := by
    field_simp
    ring
  rw [e, Real.sqrt_sq hA]
  simp

/-- `getRTD` does not touch the RTD parameters. -/
theorem getRTD_rtdConfig (R : RegisterMap) (env : Nat → Reply) (rtd0 : Nat)
    (d : Max31865 F) : (getRTD R env rtd0 d).2.2.rtdConfig = d.rtdConfig := by
  rcases d with ⟨rc, ⟨vb, ac, nw, fd, fl⟩, sent, log⟩
  cases vb <;> cases ac <;>
    by_cases h0 : (env sent).err = ESP_OK <;>
    by_cases h1 : (env (sent + 1)).err = ESP_OK <;>
    by_cases h2 : (env (sent + 2)).err = ESP_OK <;>
    by_cases h3 : (env (sent + 3)).err = ESP_OK <;>
    simp [getRTD, setConfig, readSPI, writeSPI, spi_device_transmit, vTaskDelay, h0, h1, h2,
      h3, Nat.add_assoc]

/-- C9: over the reals, for a raw ratio in [0, 32767] and positive reference and nominal
resistances with non-negative discriminant `A² - 4B + (4B/Rnominal)·Rrtd`, where
`Rrtd = RawRatio · reference / 32768`, the Callendar-Van Dusen value `T` that
`getTemperature` computes satisfies `Rnominal · (1 + A·T + B·T²) = Rrtd`. -/
theorem callendarVanDusen_solves (rtd : Nat) (ref nominal : ℝ) (_hrtd : rtd ≤ 32767)
    (_href : 0 < ref) (hnom : 0 < nominal)
    (hdisc : 0 ≤ (3.9083e-3 : ℝ) ^ 2 - 4 * (-5.775e-7)
      + (4 * (-5.775e-7) / nominal) * ((rtd : ℝ) * ref / 32768)) :
    getTemperature.Rrtd ⟨ref, nominal⟩ rtd = (rtd : ℝ) * ref / 32768 ∧
    nominal * (1
        + 3.9083e-3 * getTemperature.callendarVanDusen Real.sqrt ⟨ref, nominal⟩
            (getTemperature.Rrtd ⟨ref, nominal⟩ rtd)
        + (-5.775e-7) * getTemperature.callendarVanDusen Real.sqrt ⟨ref, nominal⟩
            (getTemperature.Rrtd ⟨ref, nominal⟩ rtd) ^ 2)
      = (rtd : ℝ) * ref / 32768 := by
  have hR : getTemperature.Rrtd ⟨ref, nominal⟩ rtd = (rtd : ℝ) * ref / 32768 := by
    simp [getTemperature.Rrtd]
  refine ⟨hR, ?_⟩
  rw [hR]
  have hd : (0 : ℝ) ≤ 3.9083e-3 * 3.9083e-3 - 4 * (-5.775e-7)
      + (4 * (-5.775e-7) / nominal) * ((rtd : ℝ) * ref / 32768) := by
    rw [← sq]; exact hdisc
  exact quadratic_root_of_sq 3.9083e-3 (-5.775e-7) nominal _ _ (by norm_num) hnom.ne'
    (Real.sq_sqrt hd)

/-- Witness of C9: raw ratio 16384 with reference 400 and nominal 100 (200 ohm). -/
theorem callendarVanDusen_solves_witness :
    (100 : ℝ) * (1
        + 3.9083e-3 * getTemperature.callendarVanDusen Real.sqrt ⟨400, 100⟩
            (getTemperature.Rrtd ⟨400, 100⟩ 16384)
        + (-5.775e-7) * getTemperature.callendarVanDusen Real.sqrt ⟨400, 100⟩
            (getTemperature.Rrtd ⟨400, 100⟩ 16384) ^ 2)
      = ((16384 : Nat) : ℝ) * 400 / 32768 :=
  (callendarVanDusen_solves 16384 400 100 (by decide) (by norm_num) (by norm_num)
    (by norm_num)).2

/-- C10: over the reals, when `getRTD` succeeds with raw ratio `rtd` and
`Rrtd = rtd · reference / 32768` is at most the (positive) nominal resistance, the
Callendar-Van Dusen value is `≤ 0` (exactly 0 when `Rrtd = Rnominal`), so `getTemperature`
returns success with the quintic
`-242.02 + 2.2228 r + 2.5859e-3 r² + 4.8260e-6 r³ + 2.8183e-8 r⁴ + 1.5243e-10 r⁵`
at `r = 100 · Rrtd / Rnominal`. -/
theorem getTemperature_polynomial_branch (R : RegisterMap) (env : Nat → Reply) (t0 : ℝ)
    (d : Max31865 ℝ) (rtd : Nat)
    (hok : (getRTD R env 0 d).1 = ESP_OK) (hraw : (getRTD R env 0 d).2.1 = rtd)
    (_href : 0 < d.rtdConfig.ref) (hnom : 0 < d.rtdConfig.nominal)
    (hle : (rtd : ℝ) * d.rtdConfig.ref / 32768 ≤ d.rtdConfig.nominal) :
    getTemperature.callendarVanDusen Real.sqrt d.rtdConfig
        ((rtd : ℝ) * d.rtdConfig.ref / 32768) ≤ 0 ∧
    ((rtd : ℝ) * d.rtdConfig.ref / 32768 = d.rtdConfig.nominal →
      getTemperature.callendarVanDusen Real.sqrt d.rtdConfig
        ((rtd : ℝ) * d.rtdConfig.ref / 32768) = 0) ∧
    (getTemperature Real.sqrt R env t0 d).1 = ESP_OK ∧
    (getTemperature Real.sqrt R env t0 d).2.1 =
      -242.02 + 2.2228 * (100 * ((rtd : ℝ) * d.rtdConfig.ref / 32768) / d.rtdConfig.nominal)
        + 2.5859e-3 * (100 * ((rtd : ℝ) * d.rtdConfig.ref / 32768) / d.rtdConfig.nominal) ^ 2
        + 4.8260e-6 * (100 * ((rtd : ℝ) * d.rtdConfig.ref / 32768) / d.rtdConfig.nominal) ^ 3
        + 2.8183e-8 * (100 * ((rtd : ℝ) * d.rtdConfig.ref / 32768) / d.rtdConfig.nominal) ^ 4
        + 1.5243e-10 * (100 * ((rtd : ℝ) * d.rtdConfig.ref / 32768) / d.rtdConfig.nominal) ^ 5
      := by
  have hcvd : getTemperature.callendarVanDusen Real.sqrt d.rtdConfig
      ((rtd : ℝ) * d.rtdConfig.ref / 32768) ≤ 0 :=
    root_nonpos_of_le 3.9083e-3 (-5.775e-7) _ _ (by norm_num) hnom hle
  have hR : getTemperature.Rrtd d.rtdConfig (getRTD R env 0 d).2.1
      = (rtd : ℝ) * d.rtdConfig.ref / 32768 := by
    rw [hraw]
    simp [getTemperature.Rrtd]
  refine ⟨hcvd, ?_, ?_, ?_⟩
  · intro heq
    rw [heq]
    exact root_zero_of_eq 3.9083e-3 (-5.775e-7) _ (by norm_num) hnom
  · rw [getTemperature_err, hok]
  · have hnot : ¬ (getTemperature.callendarVanDusen Real.sqrt d.rtdConfig
        ((rtd : ℝ) * d.rtdConfig.ref / 32768) > 0) := not_lt.mpr hcvd
    have h00 : (0.0 : ℝ) = 0 := by norm_num
    have h100 : (100.0 : ℝ) = 100 := by norm_num
    unfold getTemperature
    simp only [hok, ne_eq, not_true_eq_false, if_false, getRTD_rtdConfig]
    rw [hR, h00, if_neg hnot]
    unfold getTemperature.polynomial
    simp only
    rw [h100]
    ring

/-- Witness of C10: the RTD register reads `0x4000` (raw ratio 8192) with reference 400
and nominal 100, so `Rrtd = 100 = Rnominal`. -/
theorem getTemperature_polynomial_branch_witness :
    (getTemperature Real.sqrt sampleRegisters sampleReplies 0 (sampleDriver ℝ true true)).1
      = ESP_OK ∧
    (getTemperature Real.sqrt sampleRegisters sampleReplies 0 (sampleDriver ℝ true true)).2.1 =
      -242.02 + 2.2228 * (100 * (((8192 : Nat) : ℝ) * 400 / 32768) / 100)
        + 2.5859e-3 * (100 * (((8192 : Nat) : ℝ) * 400 / 32768) / 100) ^ 2
        + 4.8260e-6 * (100 * (((8192 : Nat) : ℝ) * 400 / 32768) / 100) ^ 3
        + 2.8183e-8 * (100 * (((8192 : Nat) : ℝ) * 400 / 32768) / 100) ^ 4
        + 1.5243e-10 * (100 * (((8192 : Nat) : ℝ) * 400 / 32768) / 100) ^ 5 :=
  (getTemperature_polynomial_branch sampleRegisters sampleReplies 0 (sampleDriver ℝ true true)
    8192 rfl rfl (by norm_num [sampleDriver]) (by norm_num [sampleDriver])
    (by norm_num [sampleDriver])).2.2

theorem root_pos_of_gt (A B n R : ℝ) (hA : 0 < A) (hB : B < 0) (hn : 0 < n) (hR : n < R) :
    0 < (Real.sqrt (A * A - 4 * B + (4 * B / n) * R) + -A) / (2 * B) := by
  have hq : 1 < R / n := (one_lt_div hn).mpr hR
  have hD : A * A - 4 * B + (4 * B / n) * R < A ^ 2 := by
    have e : (4 * B / n) * R = 4 * B * (R / n) := by ring
    rw [e]
    nlinarith
  have hs : Real.sqrt (A * A - 4 * B + (4 * B / n) * R) < A := (Real.sqrt_lt' hA).mpr hD
  exact div_pos_of_neg_of_neg (by linarith) (by linarith)

/-- The Callendar-Van Dusen value of lines 170-178 written out:
`(sqrt(A² - 4B + (4B/Rnominal)·Rrtd) - A) / (2B)`. -/
theorem callendarVanDusen_formula (rtdConfig : max31865_rtd_config_t ℝ) (Rrtd : ℝ) :
    getTemperature.callendarVanDusen Real.sqrt rtdConfig Rrtd =
      (Real.sqrt ((3.9083e-3 : ℝ) ^ 2 - 4 * (-5.775e-7)
          + (4 * (-5.775e-7) / rtdConfig.nominal) * Rrtd) - 3.9083e-3)
        / (2 * (-5.775e-7)) := by
  simp only [getTemperature.callendarVanDusen, sq, sub_eq_add_neg]

/-- C11: over the reals, when `getRTD` succeeds with raw ratio `rtd`, the resistances are
positive, `Rrtd = rtd · reference / 32768` is strictly above the nominal resistance and the
discriminant is non-negative, `getTemperature` returns success and the value
`(sqrt(A² - 4B + (4B/Rnominal)·Rrtd) - A) / (2B)` with `A = 3.9083e-3`, `B = -5.775e-7`
(the Callendar-Van Dusen value, not the polynomial), and that value is strictly
positive. -/
theorem getTemperature_primary_branch (R : RegisterMap) (env : Nat → Reply) (t0 : ℝ)
    (d : Max31865 ℝ) (rtd : Nat)
    (hok : (getRTD R env 0 d).1 = ESP_OK) (hraw : (getRTD R env 0 d).2.1 = rtd)
    (_href : 0 < d.rtdConfig.ref) (hnom : 0 < d.rtdConfig.nominal)
    (hgt : d.rtdConfig.nominal < (rtd : ℝ) * d.rtdConfig.ref / 32768)
    (_hdisc : 0 ≤ (3.9083e-3 : ℝ) ^ 2 - 4 * (-5.775e-7)
      + (4 * (-5.775e-7) / d.rtdConfig.nominal) * ((rtd : ℝ) * d.rtdConfig.ref / 32768)) :
    (getTemperature Real.sqrt R env t0 d).1 = ESP_OK ∧
    (getTemperature Real.sqrt R env t0 d).2.1 =
      (Real.sqrt ((3.9083e-3 : ℝ) ^ 2 - 4 * (-5.775e-7)
          + (4 * (-5.775e-7) / d.rtdConfig.nominal)
            * ((rtd : ℝ) * d.rtdConfig.ref / 32768)) - 3.9083e-3)
        / (2 * (-5.775e-7)) ∧
    0 < (getTemperature Real.sqrt R env t0 d).2.1 ∧
    (getTemperature Real.sqrt R env t0 d).2.1 =
      getTemperature.callendarVanDusen Real.sqrt d.rtdConfig
        ((rtd : ℝ) * d.rtdConfig.ref / 32768) ∧
    0 < getTemperature.callendarVanDusen Real.sqrt d.rtdConfig
        ((rtd : ℝ) * d.rtdConfig.ref / 32768) := by
  have hcvd : 0 < getTemperature.callendarVanDusen Real.sqrt d.rtdConfig
      ((rtd : ℝ) * d.rtdConfig.ref / 32768) :=
    root_pos_of_gt 3.9083e-3 (-5.775e-7) _ _ (by norm_num) (by norm_num) hnom hgt
  have hR : getTemperature.Rrtd d.rtdConfig (getRTD R env 0 d).2.1
      = (rtd : ℝ) * d.rtdConfig.ref / 32768 := by
    rw [hraw]
    simp [getTemperature.Rrtd]
  have hval : (getTemperature Real.sqrt R env t0 d).2.1 =
      getTemperature.callendarVanDusen Real.sqrt d.rtdConfig
        ((rtd : ℝ) * d.rtdConfig.ref / 32768) := by
    have h00 : (0.0 : ℝ) = 0 := by norm_num
    unfold getTemperature
    simp only [hok, ne_eq, not_true_eq_false, if_false, getRTD_rtdConfig]
    rw [hR, h00, if_pos hcvd]
  refine ⟨?_, ?_, ?_, hval, hcvd⟩
  · rw [getTemperature_err, hok]
  · rw [hval, callendarVanDusen_formula]
  · rw [hval]
    exact hcvd

/-- Witness of C11, the case the claim singles out: the RTD register reads `0xFFFF` (raw
ratio 32767, the 15-bit maximum) with reference 430 and nominal 100. -/
theorem getTemperature_primary_branch_witness :
    (getTemperature Real.sqrt sampleRegisters (sampleRepliesBytes 0xFF 0xFF) 0
        (sampleDriver430 ℝ)).1 = ESP_OK ∧
    (getTemperature Real.sqrt sampleRegisters (sampleRepliesBytes 0xFF 0xFF) 0
        (sampleDriver430 ℝ)).2.1 =
      (Real.sqrt ((3.9083e-3 : ℝ) ^ 2 - 4 * (-5.775e-7)
          + (4 * (-5.775e-7) / 100) * (((32767 : Nat) : ℝ) * 430 / 32768)) - 3.9083e-3)
        / (2 * (-5.775e-7)) ∧
    0 < (getTemperature Real.sqrt sampleRegisters (sampleRepliesBytes 0xFF 0xFF) 0
        (sampleDriver430 ℝ)).2.1 :=
  have h := getTemperature_primary_branch sampleRegisters (sampleRepliesBytes 0xFF 0xFF) 0
    (sampleDriver430 ℝ) 32767 rfl rfl (by norm_num [sampleDriver430])
    (by norm_num [sampleDriver430]) (by norm_num [sampleDriver430])
    (by norm_num [sampleDriver430])
  ⟨h.1, h.2.1, h.2.2.1⟩

/-! ## Lossy read-back, request addresses, idempotence -/

/-- C13: for every configuration `c`, decoding the byte `setConfig` encodes for `c` gives
back `c`'s bias, conversion mode, wire count and filter, and the low bit of `c`'s
fault-detection value: `NoAction` and `RunManual` read back as `NoAction`, `Automatic` and
`FinishManual` as `Automatic`. -/
theorem decode_encode_low_bit (c : max31865_config_t) :
    (getConfig.decode (setConfig.configByte c)).vbias = c.vbias ∧
    (getConfig.decode (setConfig.configByte c)).autoConversion = c.autoConversion ∧
    (getConfig.decode (setConfig.configByte c)).nWires = c.nWires ∧
    (getConfig.decode (setConfig.configByte c)).filter = c.filter ∧
    (getConfig.decode (setConfig.configByte c)).faultDetection
      = Max31865FaultDetection.cast (c.faultDetection.toNat % 2) ∧
    (getConfig.decode (setConfig.configByte c)).faultDetection
      = (match c.faultDetection with
         | Max31865FaultDetection.NoAction => Max31865FaultDetection.NoAction
         | Max31865FaultDetection.RunManual => Max31865FaultDetection.NoAction
         | Max31865FaultDetection.Automatic => Max31865FaultDetection.Automatic
         | Max31865FaultDetection.FinishManual => Max31865FaultDetection.Automatic) := by
  rcases c with ⟨vb, ac, nw, fd, fl⟩
  cases vb <;> cases ac <;> cases nw <;> cases fd <;> cases fl <;> decide

/-- C14: for every 8-bit register address `a`, `writeSPI` transmits one transaction whose
address is `a` with bit 7 set and the low 7 bits unchanged, `readSPI` one whose address is
`a` with bit 7 cleared and the low 7 bits unchanged (`a AND 0x7F`); the two addresses
differ in bit 7 only. -/
theorem spi_address_select_bit (env : Nat → Reply) (a : Nat) (data : List Nat)
    (result : Nat → Nat) (size : Nat) (d : Max31865 F) (ha : a < 256) :
    (∃ t, (writeSPI env a data size d).2.log = d.log ++ [Event.transmit t] ∧
      t.addr = a ||| 0x80 ∧ t.addr.testBit 7 = true ∧
      ∀ i, i < 7 → t.addr.testBit i = a.testBit i) ∧
    (∃ t, (readSPI env a result size d).2.2.log = d.log ++ [Event.transmit t] ∧
      t.addr = a &&& 0x7F ∧ t.addr.testBit 7 = false ∧
      ∀ i, i < 7 → t.addr.testBit i = a.testBit i) ∧
    ∀ i, i ≠ 7 → (a ||| 0x80).testBit i = (a &&& 0x7F).testBit i := by
  have hm : a % 256 = a := Nat.mod_eq_of_lt ha
  have h80 : ∀ i, Nat.testBit 0x80 i = decide (7 = i) := fun i => @Nat.testBit_two_pow 7 i
  have h7F : ∀ i, i < 7 → Nat.testBit 0x7F i = true := by
    intro i hi
    interval_cases i <;> decide
  have ha8 : ∀ i, 8 ≤ i → a.testBit i = false := by
    intro i hi
    have hp : (2 : Nat) ^ 8 ≤ 2 ^ i := Nat.pow_le_pow_right (by norm_num) hi
    exact Nat.testBit_lt_two_pow (by omega)
  refine ⟨⟨_, rfl, ?_, ?_, ?_⟩, ⟨_, rfl, ?_, ?_, ?_⟩, ?_⟩
  · simp [hm, MAX31865_REG_WRITE_OFFSET]
  · simp [hm, MAX31865_REG_WRITE_OFFSET, h80]
  · intro i hi
    have hne : ¬ (7 = i) := by omega
    simp [hm, MAX31865_REG_WRITE_OFFSET, h80, hne]
  · simp [hm, MAX31865_REG_WRITE_OFFSET]
  · have h7 : Nat.testBit 0x7F 7 = false := by decide
    simp [hm, MAX31865_REG_WRITE_OFFSET, h7]
  · intro i hi
    simp [hm, MAX31865_REG_WRITE_OFFSET, h7F i hi]
  · intro i hi
    have hne : ¬ (7 = i) := fun h => hi h.symm
    by_cases h8 : i < 7
    · simp [h80, hne, h7F i h8]
    · simp [h80, hne, ha8 i (by omega)]

/-- Witness of C14 at the fault-status register address `0x07`: the write transaction
carries address `0x87`. -/
theorem spi_address_select_bit_witness :
    ∃ t, (writeSPI sampleReplies 0x07 [0] 1 (sampleDriver ℚ true true)).2.log
        = [] ++ [Event.transmit t] ∧
      t.addr = 0x07 ||| 0x80 ∧ t.addr.testBit 7 = true ∧
      ∀ i, i < 7 → t.addr.testBit i = Nat.testBit 0x07 i :=
  (spi_address_select_bit sampleReplies 0x07 [0] (fun _ => 0) 1 (sampleDriver ℚ true true)
    (by decide)).1

/-- C15: for every configuration `c`, `setConfig c` called twice in succession writes the
same byte both times and leaves the same stored configuration and the same last-written
configuration byte as a single call; the byte written does not depend on the driver state
the call starts from. -/
theorem setConfig_idempotent (R : RegisterMap) (env : Nat → Reply) (c : max31865_config_t)
    (d d' : Max31865 F) :
    (setConfig R env c d).2.log = d.log ++ [configWrite R (setConfig.configByte c)] ∧
    (setConfig R env c (setConfig R env c d).2).2.log
      = (setConfig R env c d).2.log ++ [configWrite R (setConfig.configByte c)] ∧
    (setConfig R env c d).2.chipConfig = c ∧
    (setConfig R env c (setConfig R env c d).2).2.chipConfig
      = (setConfig R env c d).2.chipConfig ∧
    (setConfig R env c (setConfig R env c d).2).2.log.getLast?
      = (setConfig R env c d).2.log.getLast? ∧
    (setConfig R env c d').2.log = d'.log ++ [configWrite R (setConfig.configByte c)] := by
  refine ⟨rfl, rfl, rfl, rfl, ?_, rfl⟩
  simp [setConfig, writeSPI, spi_device_transmit]

/-- C16: for every byte `b`, re-encoding (as `setConfig` does) the configuration decoded
from `b` (as `getConfig` does) gives `b AND 0xD5`: bits 7, 6, 4, 2 and 0 of `b`, with bits
5, 3 and 1 cleared. -/
theorem encode_decode_mask (b : Nat) (hb : b < 256) :
    setConfig.configByte (getConfig.decode b) = b &&& 0xD5 ∧
    (∀ i, i = 7 ∨ i = 6 ∨ i = 4 ∨ i = 2 ∨ i = 0 →
      (setConfig.configByte (getConfig.decode b)).testBit i = b.testBit i) ∧
    (∀ i, i = 5 ∨ i = 3 ∨ i = 1 →
      (setConfig.configByte (getConfig.decode b)).testBit i = false) := by
  have key : setConfig.configByte (getConfig.decode b) = b &&& 0xD5 := by
    interval_cases b <;> rfl
  rw [key]
  refine ⟨rfl, ?_, ?_⟩
  · intro i hi
    have hD5 : Nat.testBit 0xD5 i = true := by
      rcases hi with h | h | h | h | h <;> subst h <;> decide
    simp [hD5]
  · intro i hi
    have hD5 : Nat.testBit 0xD5 i = false := by
      rcases hi with h | h | h <;> subst h <;> decide
    simp [hD5]

/-- Witness of C16 at the byte `0xFF`, which re-encodes to `0xD5`. -/
theorem encode_decode_mask_witness :
    setConfig.configByte (getConfig.decode 0xFF) = 0xFF &&& 0xD5 :=
  (encode_decode_mask 0xFF (by decide)).1

/-! ## Behaviour on failure, and at the nominal resistance -/

/-- What `getTemperature` returns when `getRTD` succeeds and the Callendar-Van Dusen value
is not positive: the polynomial. -/
theorem getTemperature_value_of_nonpos (R : RegisterMap) (env : Nat → Reply) (t0 : ℝ)
    (d : Max31865 ℝ) (hok : (getRTD R env 0 d).1 = ESP_OK)
    (hle : getTemperature.callendarVanDusen Real.sqrt d.rtdConfig
      (getTemperature.Rrtd d.rtdConfig (getRTD R env 0 d).2.1) ≤ 0) :
    (getTemperature Real.sqrt R env t0 d).2.1 =
      getTemperature.polynomial d.rtdConfig
        (getTemperature.Rrtd d.rtdConfig (getRTD R env 0 d).2.1) := by
  have h00 : (0.0 : ℝ) = 0 := by norm_num
  unfold getTemperature
  simp only [hok, ne_eq, not_true_eq_false, if_false, getRTD_rtdConfig]
  rw [h00, if_neg (not_lt.mpr hle)]

/-- What `getTemperature` returns when `getRTD` succeeds and the Callendar-Van Dusen value
is positive: that value. -/
theorem getTemperature_value_of_pos (R : RegisterMap) (env : Nat → Reply) (t0 : ℝ)
    (d : Max31865 ℝ) (hok : (getRTD R env 0 d).1 = ESP_OK)
    (hpos : 0 < getTemperature.callendarVanDusen Real.sqrt d.rtdConfig
      (getTemperature.Rrtd d.rtdConfig (getRTD R env 0 d).2.1)) :
    (getTemperature Real.sqrt R env t0 d).2.1 =
      getTemperature.callendarVanDusen Real.sqrt d.rtdConfig
        (getTemperature.Rrtd d.rtdConfig (getRTD R env 0 d).2.1) := by
  have h00 : (0.0 : ℝ) = 0 := by norm_num
  unfold getTemperature
  simp only [hok, ne_eq, not_true_eq_false, if_false, getRTD_rtdConfig]
  rw [h00, if_pos hpos]

/-- With reference 400 and nominal 100, the raw ratio 8192 (`Rrtd = 100 = Rnominal`) makes
`getTemperature` return `15.2876`. -/
theorem getTemperature_at_nominal :
    (getTemperature Real.sqrt sampleRegisters (sampleRepliesBytes 0x40 0x00) 0
      (sampleDriver ℝ true true)).2.1 = 15.2876 := by
  have hraw : (getRTD sampleRegisters (sampleRepliesBytes 0x40 0x00) 0
      (sampleDriver ℝ true true)).2.1 = 8192 := rfl
  have hR : getTemperature.Rrtd (sampleDriver ℝ true true).rtdConfig
      (getRTD sampleRegisters (sampleRepliesBytes 0x40 0x00) 0
        (sampleDriver ℝ true true)).2.1 = 100 := by
    rw [hraw]
    have h15 : (1 <<< 15 : Nat) = 32768 := rfl
    norm_num [getTemperature.Rrtd, sampleDriver, h15]
  have hle : getTemperature.callendarVanDusen Real.sqrt (sampleDriver ℝ true true).rtdConfig
      (getTemperature.Rrtd (sampleDriver ℝ true true).rtdConfig
        (getRTD sampleRegisters (sampleRepliesBytes 0x40 0x00) 0
          (sampleDriver ℝ true true)).2.1) ≤ 0 := by
    rw [hR]
    exact root_nonpos_of_le 3.9083e-3 (-5.775e-7) _ _ (by norm_num)
      (by norm_num [sampleDriver]) (by norm_num [sampleDriver])
  rw [getTemperature_value_of_nonpos sampleRegisters (sampleRepliesBytes 0x40 0x00) 0
    (sampleDriver ℝ true true) rfl hle, hR]
  norm_num [getTemperature.polynomial, sampleDriver]

/-- With reference 400 and nominal 100, the raw ratio 8193 makes `getTemperature` return a
value below 1. -/
theorem getTemperature_above_nominal :
    (getTemperature Real.sqrt sampleRegisters (sampleRepliesBytes 0x40 0x02) 0
      (sampleDriver ℝ true true)).2.1 < 1 := by
  have hraw : (getRTD sampleRegisters (sampleRepliesBytes 0x40 0x02) 0
      (sampleDriver ℝ true true)).2.1 = 8193 := rfl
  have hR : getTemperature.Rrtd (sampleDriver ℝ true true).rtdConfig
      (getRTD sampleRegisters (sampleRepliesBytes 0x40 0x02) 0
        (sampleDriver ℝ true true)).2.1 = 8193 * 400 / 32768 := by
    rw [hraw]
    have h15 : (1 <<< 15 : Nat) = 32768 := rfl
    norm_num [getTemperature.Rrtd, sampleDriver, h15]
  have hpos : 0 < getTemperature.callendarVanDusen Real.sqrt
      (sampleDriver ℝ true true).rtdConfig
      (getTemperature.Rrtd (sampleDriver ℝ true true).rtdConfig
        (getRTD sampleRegisters (sampleRepliesBytes 0x40 0x02) 0
          (sampleDriver ℝ true true)).2.1) := by
    rw [hR]
    exact root_pos_of_gt 3.9083e-3 (-5.775e-7) _ _ (by norm_num) (by norm_num)
      (by norm_num [sampleDriver]) (by norm_num [sampleDriver])
  rw [getTemperature_value_of_pos sampleRegisters (sampleRepliesBytes 0x40 0x02) 0
    (sampleDriver ℝ true true) rfl hpos, hR]
  have hs : (3.9083e-3 : ℝ) + 2 * (-5.775e-7) <
      Real.sqrt (3.9083e-3 * 3.9083e-3 - 4 * (-5.775e-7)
        + (4 * (-5.775e-7) / 100) * (8193 * 400 / 32768)) :=
    Real.lt_sqrt_of_sq_lt (by norm_num)
  have hB : (2 : ℝ) * (-5.775e-7) < 0 := by norm_num
  show (Real.sqrt (3.9083e-3 * 3.9083e-3 - 4 * (-5.775e-7)
        + (4 * (-5.775e-7) / 100) * (8193 * 400 / 32768)) + -3.9083e-3)
      / (2 * (-5.775e-7)) < 1
  rw [div_lt_iff_of_neg hB]
  linarith

/-- The stored configuration `getRTD` leaves behind, by how far the call got: the one
before the call once the restoring `setConfig` is reached, or if bias was already on;
otherwise the one before the call with bias forced on. -/
theorem getRTD_chipConfig (R : RegisterMap) (env : Nat → Reply) (rtd0 : Nat)
    (d : Max31865 F) :
    ((∀ j, j ≤ rtdReadIndex d.chipConfig → (env (d.sent + j)).err = ESP_OK) →
      (getRTD R env rtd0 d).2.2.chipConfig = d.chipConfig) ∧
    (d.chipConfig.vbias = true → (getRTD R env rtd0 d).2.2.chipConfig = d.chipConfig) ∧
    ((getRTD R env rtd0 d).1 = ESP_OK →
      (getRTD R env rtd0 d).2.2.chipConfig = d.chipConfig) ∧
    (d.chipConfig.vbias = false →
      (∃ k, k ≤ rtdReadIndex d.chipConfig ∧ (env (d.sent + k)).err ≠ ESP_OK) →
      (getRTD R env rtd0 d).2.2.chipConfig = { d.chipConfig with vbias := true }) := by
  rcases d with ⟨rc, ⟨vb, ac, nw, fd, fl⟩, sent, log⟩
  refine ⟨?_, ?_, ?_, ?_⟩
  · intro hpre
    have e0 := hpre 0
    have e1 := hpre 1
    have e2 := hpre 2
    have e3 := hpre 3
    cases vb <;> cases ac <;> simp [rtdReadIndex] at e0 e1 e2 e3 <;>
      simp [getRTD, setConfig, readSPI, writeSPI, spi_device_transmit, vTaskDelay, e0, e1,
        e2, e3, Nat.add_assoc]
  · intro hv
    simp only at hv
    subst hv
    cases ac <;>
      by_cases h0 : (env sent).err = ESP_OK <;>
      by_cases h1 : (env (sent + 1)).err = ESP_OK <;>
      by_cases h2 : (env (sent + 2)).err = ESP_OK <;>
      simp [getRTD, setConfig, readSPI, writeSPI, spi_device_transmit, vTaskDelay, h0, h1,
        h2, Nat.add_assoc]
  · cases vb <;> cases ac <;>
      by_cases h0 : (env sent).err = ESP_OK <;>
      by_cases h1 : (env (sent + 1)).err = ESP_OK <;>
      by_cases h2 : (env (sent + 2)).err = ESP_OK <;>
      by_cases h3 : (env (sent + 3)).err = ESP_OK <;>
      simp [getRTD, setConfig, readSPI, writeSPI, spi_device_transmit, vTaskDelay, h0, h1,
        h2, h3, Nat.add_assoc]
  · intro hv hfail
    simp only at hv
    subst hv
    obtain ⟨k, hk, hkerr⟩ := hfail
    cases ac <;> simp [rtdReadIndex] at hk <;> interval_cases k <;> simp at hkerr <;>
      by_cases h0 : (env sent).err = ESP_OK <;>
      by_cases h1 : (env (sent + 1)).err = ESP_OK <;>
      by_cases h2 : (env (sent + 2)).err = ESP_OK <;>
      by_cases h3 : (env (sent + 3)).err = ESP_OK <;>
      simp [getRTD, setConfig, readSPI, writeSPI, spi_device_transmit, vTaskDelay, h0, h1,
        h2, h3, Nat.add_assoc] at hkerr ⊢

/-- C12 as amended: after a `getTemperature` call the stored configuration equals the one
before the call whenever the call returns success, whenever every transaction before the
restoring write succeeds (also if that write then fails), and whenever bias was already on;
when bias was off and a transaction before the restoring write fails, nothing is restored
and the stored configuration is the earlier one with bias on. -/
theorem getTemperature_stored_config [LinearOrderedField F] (sqrt : F → F)
    (R : RegisterMap) (env : Nat → Reply) (t0 : F) (d : Max31865 F) :
    ((getTemperature sqrt R env t0 d).1 = ESP_OK →
      (getTemperature sqrt R env t0 d).2.2.chipConfig = d.chipConfig) ∧
    ((∀ j, j ≤ rtdReadIndex d.chipConfig → (env (d.sent + j)).err = ESP_OK) →
      (getTemperature sqrt R env t0 d).2.2.chipConfig = d.chipConfig) ∧
    (d.chipConfig.vbias = true →
      (getTemperature sqrt R env t0 d).2.2.chipConfig = d.chipConfig) ∧
    (d.chipConfig.vbias = false →
      (∃ k, k ≤ rtdReadIndex d.chipConfig ∧ (env (d.sent + k)).err ≠ ESP_OK) →
      (getTemperature sqrt R env t0 d).2.2.chipConfig
        = { d.chipConfig with vbias := true }) := by
  rw [getTemperature_state, getTemperature_err]
  obtain ⟨h1, h2, h3, h4⟩ := getRTD_chipConfig R env 0 d
  exact ⟨h3, h1, h2, h4⟩

/-- Witness of C12 as amended: bias off, one-shot mode, every transaction succeeds; the
stored configuration after the call is the one before the call. -/
theorem getTemperature_stored_config_witness :
    (getTemperature (fun x => x) sampleRegisters sampleReplies (0 : ℚ)
        (sampleDriver ℚ false false)).2.2.chipConfig
      = (sampleDriver ℚ false false).chipConfig :=
  (getTemperature_stored_config (fun x => x) sampleRegisters sampleReplies (0 : ℚ)
    (sampleDriver ℚ false false)).2.1 (fun _ _ => rfl)

/-- C12 refuted as stated: the stored configuration has bias off and the first transaction
of the call (the bias-enable write) times out. `getTemperature` returns the error, and the
stored configuration is left with bias on, so it differs from the one before the call. -/
theorem getTemperature_failure_keeps_bias_on :
    (sampleDriver ℚ false false).chipConfig.vbias = false ∧
    (getTemperature (fun x => x) sampleRegisters (sampleTimeoutAt 0) (25 : ℚ)
      (sampleDriver ℚ false false)).1 = 0x107 ∧
    (getTemperature (fun x => x) sampleRegisters (sampleTimeoutAt 0) (25 : ℚ)
      (sampleDriver ℚ false false)).2.2.chipConfig.vbias = true ∧
    (getTemperature (fun x => x) sampleRegisters (sampleTimeoutAt 0) (25 : ℚ)
      (sampleDriver ℚ false false)).2.2.chipConfig
      ≠ (sampleDriver ℚ false false).chipConfig := by
  refine ⟨rfl, rfl, rfl, ?_⟩
  intro h
  have hv := congrArg max31865_config_t.vbias h
  exact absurd hv (by decide)

/-- C17, evaluated where it fails: with reference 400 and nominal 100 the raw ratios 8192
and 8193 are in range and ordered, yet the temperature returned for 8193 (below 1) is
smaller than the one returned for 8192 (15.2876). -/
theorem getTemperature_not_monotone :
    (getRTD sampleRegisters (sampleRepliesBytes 0x40 0x00) 0
      (sampleDriver ℝ true true)).2.1 = 8192 ∧
    (getRTD sampleRegisters (sampleRepliesBytes 0x40 0x02) 0
      (sampleDriver ℝ true true)).2.1 = 8193 ∧
    (getTemperature Real.sqrt sampleRegisters (sampleRepliesBytes 0x40 0x02) 0
      (sampleDriver ℝ true true)).2.1
      < (getTemperature Real.sqrt sampleRegisters (sampleRepliesBytes 0x40 0x00) 0
        (sampleDriver ℝ true true)).2.1 := by
  refine ⟨rfl, rfl, ?_⟩
  rw [getTemperature_at_nominal]
  exact lt_trans getTemperature_above_nominal (by norm_num)

/-- C18, evaluated where it fails: with reference 400, nominal 100 and raw ratio 8192 the
measured resistance equals the nominal resistance, and `getTemperature` returns `15.2876`,
which is not within `0.01` of `0`. -/
theorem getTemperature_at_nominal_far_from_zero :
    getTemperature.Rrtd (sampleDriver ℝ true true).rtdConfig 8192
      = (sampleDriver ℝ true true).rtdConfig.nominal ∧
    (getTemperature Real.sqrt sampleRegisters (sampleRepliesBytes 0x40 0x00) 0
      (sampleDriver ℝ true true)).1 = ESP_OK ∧
    (getTemperature Real.sqrt sampleRegisters (sampleRepliesBytes 0x40 0x00) 0
      (sampleDriver ℝ true true)).2.1 = 15.2876 ∧
    ¬ (|(getTemperature Real.sqrt sampleRegisters (sampleRepliesBytes 0x40 0x00) 0
      (sampleDriver ℝ true true)).2.1 - 0| ≤ 0.01) := by
  have h15 : (1 <<< 15 : Nat) = 32768 := rfl
  refine ⟨by norm_num [getTemperature.Rrtd, sampleDriver, h15], ?_,
    getTemperature_at_nominal, ?_⟩
  · rw [getTemperature_err]
    rfl
  · rw [getTemperature_at_nominal]
    norm_num [abs_of_pos]

end Esp32Max31865
